import Mathlib

/-!
# Verification of the transaction fee model (`scripts/feecalc.py`)

A shallow embedding of the fee model: the two dataclasses
(`TransactionMetrics`, `ComputationSummary`), the rate constants, and the
four operations (`cycle_bucket`, `kilo_bytes`, `calculate_computation_units`,
`total_computation_units`).

Python integers are unbounded, so every numeric field is modelled as `Int`.
`math.log2` raises `ValueError` on a non-positive argument, so `cycle_bucket`
(and hence `calculate_computation_units`) is modelled in `Except`.  For a
positive integer argument `n`, `math.ceil(math.log2(n))` is the ceiling of
the base-2 logarithm of `n`, which is `Nat.clog 2 n`; likewise
`math.ceil(s / 1000)` is the exact ceiling of the rational `s / 1000`.  (On
the documented input domains — `num_cycles` up to `2 ^ 29`, byte sizes up to
a few hundred thousand — the double-precision intermediates of the Python
code are exact enough that these mathematical values coincide with the
values the script computes.)
-/

namespace FeeCalc

/-- `COMPUTATION_UNIT_PER_CYCLE_BUCKET = 500` from the source. -/
def COMPUTATION_UNIT_PER_CYCLE_BUCKET : Int := 500

/-- `COMPUTATION_UNIT_PER_CREATED_NOTE = 50` from the source. -/
def COMPUTATION_UNIT_PER_CREATED_NOTE : Int := 50

/-- `COMPUTATION_UNIT_PER_CONSUMED_NOTE = 30` from the source. -/
def COMPUTATION_UNIT_PER_CONSUMED_NOTE : Int := 30

/-- `COMPUTATION_UNIT_PER_KILO_BYTE = 15` from the source. -/
def COMPUTATION_UNIT_PER_KILO_BYTE : Int := 15

/-- The only failure path of the fee model: Python's `math.log2` raises
`ValueError` ("math domain error") when its argument is not positive. -/
inductive PyError where
  | valueError : PyError
  deriving DecidableEq

/-- The `ComputationSummary` dataclass: the cost breakdown output. -/
structure ComputationSummary where
  cycle_units : Int := 0
  notes_consumed_units : Int := 0
  notes_created_units : Int := 0
  data_units : Int := 0
  deriving DecidableEq

/-- `ComputationSummary.total_computation_units`: the sum of the four unit
fields, recomputed from the current field values. -/
def ComputationSummary.total_computation_units (s : ComputationSummary) : Int :=
  s.cycle_units + s.notes_consumed_units + s.notes_created_units + s.data_units

/-- The `TransactionMetrics` dataclass: the five input metrics. -/
structure TransactionMetrics where
  num_cycles : Int := 0
  num_notes_consumed : Int := 0
  num_notes_created : Int := 0
  created_public_notes_byte_size : Int := 0
  public_account_delta_byte_size : Int := 0
  deriving DecidableEq

/-- `math.ceil(math.log2(self.num_cycles))` from
`TransactionMetrics.cycle_bucket`.  `math.log2` raises `ValueError` unless
`num_cycles > 0`; for positive `n` the result is the ceiling of the base-2
logarithm of `n`, i.e. `Nat.clog 2 n`. -/
def TransactionMetrics.cycle_bucket (tm : TransactionMetrics) : Except PyError Int :=
  if tm.num_cycles ≤ 0 then .error .valueError
  else .ok (Nat.clog 2 tm.num_cycles.toNat : ℕ)

/-- Exact value of `math.ceil(x / d)` for integers `x` and `d > 0`: Lean's
`/` on `Int` rounds toward negative infinity for a positive divisor, so the
ceiling is obtained by negating twice. -/
def ceilDiv (x d : Int) : Int := -((-x) / d)

/-- `math.ceil((self.created_public_notes_byte_size +
self.public_account_delta_byte_size) / 1000)` from
`TransactionMetrics.kilo_bytes`. -/
def TransactionMetrics.kilo_bytes (tm : TransactionMetrics) : Int :=
  ceilDiv (tm.created_public_notes_byte_size + tm.public_account_delta_byte_size) 1000

/-- `TransactionMetrics.calculate_computation_units` from the source: a
`ValueError` raised by `cycle_bucket` propagates; otherwise the four cost
components are the products of the derived quantities with the rate
constants. -/
def TransactionMetrics.calculate_computation_units (tm : TransactionMetrics) :
    Except PyError ComputationSummary :=
  match tm.cycle_bucket with
  | .error e => .error e
  | .ok cycle_bucket =>
      .ok { cycle_units := cycle_bucket * COMPUTATION_UNIT_PER_CYCLE_BUCKET
            notes_consumed_units := tm.num_notes_consumed * COMPUTATION_UNIT_PER_CONSUMED_NOTE
            notes_created_units := tm.num_notes_created * COMPUTATION_UNIT_PER_CREATED_NOTE
            data_units := tm.kilo_bytes * COMPUTATION_UNIT_PER_KILO_BYTE }

/-! ## Helper lemmas -/

/-- On a positive `num_cycles`, `cycle_bucket` succeeds with `Nat.clog 2`. -/
lemma cycle_bucket_of_pos (tm : TransactionMetrics) (h : 0 < tm.num_cycles) :
    tm.cycle_bucket = .ok (Nat.clog 2 tm.num_cycles.toNat : ℕ) := by
  simp [TransactionMetrics.cycle_bucket, not_le.mpr h]

/-- Closed form of `calculate_computation_units` on a positive `num_cycles`. -/
lemma calculate_of_pos (tm : TransactionMetrics) (h : 0 < tm.num_cycles) :
    tm.calculate_computation_units =
      .ok { cycle_units := (Nat.clog 2 tm.num_cycles.toNat : ℕ) * 500
            notes_consumed_units := tm.num_notes_consumed * 30
            notes_created_units := tm.num_notes_created * 50
            data_units := tm.kilo_bytes * 15 } := by
  rw [TransactionMetrics.calculate_computation_units, cycle_bucket_of_pos tm h]
  rfl

/-- `ceilDiv` is the ceiling of the exact rational quotient. -/
lemma ceilDiv_eq_ceil (x : Int) (d : ℕ) :
    ceilDiv x (d : Int) = ⌈(x : ℚ) / (d : ℚ)⌉ := by
  have h : (x : ℚ) / (d : ℚ) = -(((-x : ℤ) : ℚ) / (d : ℚ)) := by
    push_cast
    ring
  rw [h, Int.ceil_neg, Rat.floor_intCast_div_natCast, ceilDiv]

/-- `ceilDiv` is monotone in the dividend (for a positive divisor). -/
lemma ceilDiv_mono (x y d : Int) (hd : 0 < d) (h : x ≤ y) :
    ceilDiv x d ≤ ceilDiv y d := by
  unfold ceilDiv
  have := Int.ediv_le_ediv hd (neg_le_neg h)
  omega

/-- Concrete evaluation of `Nat.clog 2` between consecutive powers of two. -/
lemma clog2_eq_of (k n : ℕ) (h1 : 2 ^ k < n) (h2 : n ≤ 2 ^ (k + 1)) :
    Nat.clog 2 n = k + 1 :=
  le_antisymm ((Nat.le_pow_iff_clog_le one_lt_two).1 h2)
    ((Nat.pow_lt_iff_lt_clog one_lt_two).1 h1)

/-- `kilo_bytes` is non-negative when both byte-size fields are. -/
lemma kilo_bytes_nonneg (tm : TransactionMetrics)
    (h3 : 0 ≤ tm.created_public_notes_byte_size)
    (h4 : 0 ≤ tm.public_account_delta_byte_size) : 0 ≤ tm.kilo_bytes := by
  have h0 : ceilDiv 0 1000 = 0 := by decide
  have := ceilDiv_mono 0
    (tm.created_public_notes_byte_size + tm.public_account_delta_byte_size) 1000
    (by norm_num) (add_nonneg h3 h4)
  rw [h0] at this
  exact this

/-! ## Claim theorems -/

/-- C1: the claim (from the spec's error-handling requirement) says that a
zero `num_cycles` and any negative metric field must be rejected with an
`InvalidInput` error.  The code rejects non-positive `num_cycles` (Python
`math.log2` raises `ValueError`), but it accepts negative values of the four
other metric fields and silently produces negative cost components: with
`num_cycles = 1024` and `num_notes_consumed = -1` it returns a summary whose
`notes_consumed_units` is `-30`. -/
theorem C1_negative_metric_not_rejected :
    (⟨0, 0, 0, 0, 0⟩ : TransactionMetrics).calculate_computation_units =
      .error .valueError ∧
    (⟨1024, -1, 0, 0, 0⟩ : TransactionMetrics).calculate_computation_units =
      .ok ⟨5000, -30, 0, 0⟩ := by
  constructor
  · rfl
  · have h10 : Nat.clog 2 1024 = 10 := by
      have h : (1024 : ℕ) = 2 ^ 10 := by norm_num
      rw [h, Nat.clog_pow 2 10 one_lt_two]
    rw [calculate_of_pos ⟨1024, -1, 0, 0, 0⟩ (by decide)]
    have ht : ((⟨1024, -1, 0, 0, 0⟩ : TransactionMetrics).num_cycles).toNat = 1024 := rfl
    rw [ht, h10]
    rfl

/-- C2: for every metrics value with positive `num_cycles`,
`calculate_computation_units` succeeds, and the summary's fields are
`cycle_bucket() * 500`, `num_notes_consumed * 30`, `num_notes_created * 50`
and `kilo_bytes() * 15`. -/
theorem C2_calculate_formulas (tm : TransactionMetrics) (h : 0 < tm.num_cycles) :
    ∃ s : ComputationSummary,
      tm.calculate_computation_units = .ok s ∧
      Except.ok s.cycle_units = tm.cycle_bucket.map (fun b => b * 500) ∧
      s.notes_consumed_units = tm.num_notes_consumed * 30 ∧
      s.notes_created_units = tm.num_notes_created * 50 ∧
      s.data_units = tm.kilo_bytes * 15 := by
  refine ⟨_, calculate_of_pos tm h, ?_, rfl, rfl, rfl⟩
  rw [cycle_bucket_of_pos tm h]
  rfl

/-- C2 witness at `num_cycles = 1024`, `5` notes consumed, `5` created. -/
theorem C2_calculate_formulas_witness :
    ∃ s : ComputationSummary,
      (⟨1024, 5, 5, 0, 0⟩ : TransactionMetrics).calculate_computation_units = .ok s ∧
      Except.ok s.cycle_units =
        (⟨1024, 5, 5, 0, 0⟩ : TransactionMetrics).cycle_bucket.map (fun b => b * 500) ∧
      s.notes_consumed_units = (⟨1024, 5, 5, 0, 0⟩ : TransactionMetrics).num_notes_consumed * 30 ∧
      s.notes_created_units = (⟨1024, 5, 5, 0, 0⟩ : TransactionMetrics).num_notes_created * 50 ∧
      s.data_units = (⟨1024, 5, 5, 0, 0⟩ : TransactionMetrics).kilo_bytes * 15 :=
  C2_calculate_formulas ⟨1024, 5, 5, 0, 0⟩ (by decide)

/-- C3: on a positive `num_cycles = n`, `cycle_bucket` returns the ceiling of
the base-2 logarithm of `n`; on `num_cycles = 2 ^ k` it returns exactly `k`,
with no extra rounding up. -/
theorem C3_cycle_bucket_is_ceil_log2 (tm1 tm2 : TransactionMetrics) (n k : ℕ)
    (hn : 0 < n) (h1 : tm1.num_cycles = (n : ℤ))
    (h2 : tm2.num_cycles = (2 : ℤ) ^ k) :
    tm1.cycle_bucket = .ok ⌈Real.logb 2 (n : ℝ)⌉ ∧
    tm2.cycle_bucket = .ok (k : ℤ) := by
  constructor
  · have hpos : 0 < tm1.num_cycles := by rw [h1]; exact_mod_cast hn
    rw [cycle_bucket_of_pos tm1 hpos, h1, Int.toNat_natCast]
    have hc : ⌈Real.logb 2 ((n : ℕ) : ℝ)⌉ = (Nat.clog 2 n : ℤ) := by
      rw [show (2 : ℝ) = ((2 : ℕ) : ℝ) by norm_num,
        Real.ceil_logb_natCast (Nat.cast_nonneg n), Int.clog_natCast]
    rw [hc]
  · have hpos : 0 < tm2.num_cycles := by rw [h2]; positivity
    rw [cycle_bucket_of_pos tm2 hpos, h2]
    have ht : ((2 : ℤ) ^ k).toNat = 2 ^ k := by
      rw [show (2 : ℤ) ^ k = ((2 ^ k : ℕ) : ℤ) by push_cast; ring, Int.toNat_natCast]
    rw [ht, Nat.clog_pow 2 k one_lt_two]

/-- C3 witness at `n = 5` (general case) and `k = 3` (power of two). -/
theorem C3_cycle_bucket_is_ceil_log2_witness :
    (⟨5, 0, 0, 0, 0⟩ : TransactionMetrics).cycle_bucket =
      .ok ⌈Real.logb 2 ((5 : ℕ) : ℝ)⌉ ∧
    (⟨8, 0, 0, 0, 0⟩ : TransactionMetrics).cycle_bucket = .ok ((3 : ℕ) : ℤ) :=
  C3_cycle_bucket_is_ceil_log2 ⟨5, 0, 0, 0, 0⟩ ⟨8, 0, 0, 0, 0⟩ 5 3
    (by decide) (by decide) (by decide)

/-- C4: `kilo_bytes` is the ceiling of the combined byte size divided by
1000; in particular a combined byte size of `1` yields `1`, of `1000` yields
exactly `1`, and of `1001` yields `2`. -/
theorem C4_kilo_bytes_is_ceil (tm : TransactionMetrics)
    (h1 : 0 ≤ tm.created_public_notes_byte_size)
    (h2 : 0 ≤ tm.public_account_delta_byte_size) :
    tm.kilo_bytes =
      ⌈((tm.created_public_notes_byte_size : ℚ) + (tm.public_account_delta_byte_size : ℚ)) / 1000⌉ ∧
    (⟨0, 0, 0, 1, 0⟩ : TransactionMetrics).kilo_bytes = 1 ∧
    (⟨0, 0, 0, 1000, 0⟩ : TransactionMetrics).kilo_bytes = 1 ∧
    (⟨0, 0, 0, 1001, 0⟩ : TransactionMetrics).kilo_bytes = 2 := by
  refine ⟨?_, by decide, by decide, by decide⟩
  have h := ceilDiv_eq_ceil
    (tm.created_public_notes_byte_size + tm.public_account_delta_byte_size) 1000
  norm_num at h
  rw [TransactionMetrics.kilo_bytes, h]

/-- C4 witness at byte sizes `500` and `250`. -/
theorem C4_kilo_bytes_is_ceil_witness :
    (⟨0, 0, 0, 500, 250⟩ : TransactionMetrics).kilo_bytes =
      ⌈(((⟨0, 0, 0, 500, 250⟩ : TransactionMetrics).created_public_notes_byte_size : ℚ) +
          ((⟨0, 0, 0, 500, 250⟩ : TransactionMetrics).public_account_delta_byte_size : ℚ)) / 1000⌉ ∧
    (⟨0, 0, 0, 1, 0⟩ : TransactionMetrics).kilo_bytes = 1 ∧
    (⟨0, 0, 0, 1000, 0⟩ : TransactionMetrics).kilo_bytes = 1 ∧
    (⟨0, 0, 0, 1001, 0⟩ : TransactionMetrics).kilo_bytes = 2 :=
  C4_kilo_bytes_is_ceil ⟨0, 0, 0, 500, 250⟩ (by decide) (by decide)

/-- C5: `total_computation_units` is the sum of the four unit fields,
recomputed from the current field values of the summary. -/
theorem C5_total_is_sum (s : ComputationSummary) :
    s.total_computation_units =
      s.cycle_units + s.notes_consumed_units + s.notes_created_units + s.data_units :=
  rfl

/-- C6: the concrete scenario `num_cycles = 1048576 = 2 ^ 20`, `250` notes
consumed, `250` notes created, `325000` public note bytes, `0` delta bytes:
bucket `20`, `325` kilobytes, summary `(10000, 7500, 12500, 4875)`, total
`34875`. -/
theorem C6_scenario_b :
    (⟨1048576, 250, 250, 325000, 0⟩ : TransactionMetrics).cycle_bucket = .ok 20 ∧
    (⟨1048576, 250, 250, 325000, 0⟩ : TransactionMetrics).kilo_bytes = 325 ∧
    (⟨1048576, 250, 250, 325000, 0⟩ : TransactionMetrics).calculate_computation_units =
      .ok ⟨10000, 7500, 12500, 4875⟩ ∧
    (⟨10000, 7500, 12500, 4875⟩ : ComputationSummary).total_computation_units = 34875 := by
  have h20 : Nat.clog 2 1048576 = 20 := by
    have h : (1048576 : ℕ) = 2 ^ 20 := by norm_num
    rw [h, Nat.clog_pow 2 20 one_lt_two]
  refine ⟨?_, by decide, ?_, by decide⟩
  · rw [cycle_bucket_of_pos ⟨1048576, 250, 250, 325000, 0⟩ (by decide)]
    have ht : ((⟨1048576, 250, 250, 325000, 0⟩ : TransactionMetrics).num_cycles).toNat =
        1048576 := rfl
    rw [ht, h20]
    rfl
  · rw [calculate_of_pos ⟨1048576, 250, 250, 325000, 0⟩ (by decide)]
    have ht : ((⟨1048576, 250, 250, 325000, 0⟩ : TransactionMetrics).num_cycles).toNat =
        1048576 := rfl
    rw [ht, h20]
    rfl

/-- C7: on the input invariant (all five fields non-negative, `num_cycles`
positive) the computation succeeds and all four output fields are
non-negative. -/
theorem C7_output_nonneg (tm : TransactionMetrics) (h0 : 0 < tm.num_cycles)
    (h1 : 0 ≤ tm.num_notes_consumed) (h2 : 0 ≤ tm.num_notes_created)
    (h3 : 0 ≤ tm.created_public_notes_byte_size)
    (h4 : 0 ≤ tm.public_account_delta_byte_size) :
    ∃ s : ComputationSummary,
      tm.calculate_computation_units = .ok s ∧
      0 ≤ s.cycle_units ∧ 0 ≤ s.notes_consumed_units ∧
      0 ≤ s.notes_created_units ∧ 0 ≤ s.data_units := by
  refine ⟨_, calculate_of_pos tm h0, ?_, ?_, ?_, ?_⟩
  · exact mul_nonneg (Int.natCast_nonneg _) (by norm_num)
  · exact mul_nonneg h1 (by norm_num)
  · exact mul_nonneg h2 (by norm_num)
  · exact mul_nonneg (kilo_bytes_nonneg tm h3 h4) (by norm_num)

/-- C7 witness at the metrics `(1024, 5, 5, 1500, 100)`. -/
theorem C7_output_nonneg_witness :
    ∃ s : ComputationSummary,
      (⟨1024, 5, 5, 1500, 100⟩ : TransactionMetrics).calculate_computation_units = .ok s ∧
      0 ≤ s.cycle_units ∧ 0 ≤ s.notes_consumed_units ∧
      0 ≤ s.notes_created_units ∧ 0 ≤ s.data_units :=
  C7_output_nonneg ⟨1024, 5, 5, 1500, 100⟩ (by decide) (by decide) (by decide)
    (by decide) (by decide)

/-- C8: `cycle_bucket` is monotonically non-decreasing in `num_cycles`: for
two metrics values with `0 < num_cycles` of the first and the first's
`num_cycles` at most the second's, both buckets are defined and the first is
at most the second. -/
theorem C8_cycle_bucket_mono (tm1 tm2 : TransactionMetrics)
    (hpos : 0 < tm1.num_cycles) (hle : tm1.num_cycles ≤ tm2.num_cycles) :
    ∃ b1 b2 : ℤ, tm1.cycle_bucket = .ok b1 ∧ tm2.cycle_bucket = .ok b2 ∧ b1 ≤ b2 := by
  refine ⟨_, _, cycle_bucket_of_pos tm1 hpos,
    cycle_bucket_of_pos tm2 (lt_of_lt_of_le hpos hle), ?_⟩
  exact_mod_cast Nat.clog_mono_right 2 (Int.toNat_le_toNat hle)

/-- C8 witness at `num_cycles` 1000 and 70000. -/
theorem C8_cycle_bucket_mono_witness :
    ∃ b1 b2 : ℤ,
      (⟨1000, 0, 0, 0, 0⟩ : TransactionMetrics).cycle_bucket = .ok b1 ∧
      (⟨70000, 0, 0, 0, 0⟩ : TransactionMetrics).cycle_bucket = .ok b2 ∧ b1 ≤ b2 :=
  C8_cycle_bucket_mono ⟨1000, 0, 0, 0, 0⟩ ⟨70000, 0, 0, 0, 0⟩ (by decide) (by decide)

/-- C9: on the valid domain, increasing any single input field by a
non-negative amount `d` (holding the others fixed) never decreases the total
of the resulting summary. -/
theorem C9_total_mono_in_each_field (tm : TransactionMetrics) (d : ℤ)
    (h0 : 0 < tm.num_cycles) (h1 : 0 ≤ tm.num_notes_consumed)
    (h2 : 0 ≤ tm.num_notes_created) (h3 : 0 ≤ tm.created_public_notes_byte_size)
    (h4 : 0 ≤ tm.public_account_delta_byte_size) (hd : 0 ≤ d) :
    (∃ s s' : ComputationSummary, tm.calculate_computation_units = .ok s ∧
      ({ tm with num_cycles := tm.num_cycles + d }
        : TransactionMetrics).calculate_computation_units = .ok s' ∧
      s.total_computation_units ≤ s'.total_computation_units) ∧
    (∃ s s' : ComputationSummary, tm.calculate_computation_units = .ok s ∧
      ({ tm with num_notes_consumed := tm.num_notes_consumed + d }
        : TransactionMetrics).calculate_computation_units = .ok s' ∧
      s.total_computation_units ≤ s'.total_computation_units) ∧
    (∃ s s' : ComputationSummary, tm.calculate_computation_units = .ok s ∧
      ({ tm with num_notes_created := tm.num_notes_created + d }
        : TransactionMetrics).calculate_computation_units = .ok s' ∧
      s.total_computation_units ≤ s'.total_computation_units) ∧
    (∃ s s' : ComputationSummary, tm.calculate_computation_units = .ok s ∧
      ({ tm with created_public_notes_byte_size := tm.created_public_notes_byte_size + d }
        : TransactionMetrics).calculate_computation_units = .ok s' ∧
      s.total_computation_units ≤ s'.total_computation_units) ∧
    (∃ s s' : ComputationSummary, tm.calculate_computation_units = .ok s ∧
      ({ tm with public_account_delta_byte_size := tm.public_account_delta_byte_size + d }
        : TransactionMetrics).calculate_computation_units = .ok s' ∧
      s.total_computation_units ≤ s'.total_computation_units) := by
  have hbase := calculate_of_pos tm h0
  refine ⟨?_, ?_, ?_, ?_, ?_⟩
  · refine ⟨_, _, hbase,
      calculate_of_pos { tm with num_cycles := tm.num_cycles + d } (by simp; omega), ?_⟩
    have hcl : (Nat.clog 2 tm.num_cycles.toNat : ℤ) ≤
        (Nat.clog 2 (tm.num_cycles + d).toNat : ℤ) := by
      exact_mod_cast Nat.clog_mono_right 2 (Int.toNat_le_toNat (by omega))
    simp only [ComputationSummary.total_computation_units, TransactionMetrics.kilo_bytes]
    simp
    nlinarith [hcl]
  · refine ⟨_, _, hbase,
      calculate_of_pos { tm with num_notes_consumed := tm.num_notes_consumed + d }
        (by simpa using h0), ?_⟩
    simp only [ComputationSummary.total_computation_units, TransactionMetrics.kilo_bytes]
    simp
    nlinarith [hd]
  · refine ⟨_, _, hbase,
      calculate_of_pos { tm with num_notes_created := tm.num_notes_created + d }
        (by simpa using h0), ?_⟩
    simp only [ComputationSummary.total_computation_units, TransactionMetrics.kilo_bytes]
    simp
    nlinarith [hd]
  · refine ⟨_, _, hbase,
      calculate_of_pos { tm with created_public_notes_byte_size :=
        tm.created_public_notes_byte_size + d } (by simpa using h0), ?_⟩
    have hk : ceilDiv (tm.created_public_notes_byte_size +
        tm.public_account_delta_byte_size) 1000 ≤
        ceilDiv (tm.created_public_notes_byte_size + d +
          tm.public_account_delta_byte_size) 1000 :=
      ceilDiv_mono _ _ 1000 (by norm_num) (by omega)
    simp only [ComputationSummary.total_computation_units, TransactionMetrics.kilo_bytes]
    simp
    nlinarith [hk]
  · refine ⟨_, _, hbase,
      calculate_of_pos { tm with public_account_delta_byte_size :=
        tm.public_account_delta_byte_size + d } (by simpa using h0), ?_⟩
    have hk : ceilDiv (tm.created_public_notes_byte_size +
        tm.public_account_delta_byte_size) 1000 ≤
        ceilDiv (tm.created_public_notes_byte_size +
          (tm.public_account_delta_byte_size + d)) 1000 :=
      ceilDiv_mono _ _ 1000 (by norm_num) (by omega)
    simp only [ComputationSummary.total_computation_units, TransactionMetrics.kilo_bytes]
    simp
    nlinarith [hk]

/-- C9 witness at the metrics `(1024, 5, 5, 1500, 100)` and increment `7`. -/
theorem C9_total_mono_in_each_field_witness :
    (∃ s s' : ComputationSummary,
      (⟨1024, 5, 5, 1500, 100⟩ : TransactionMetrics).calculate_computation_units = .ok s ∧
      (⟨1024 + 7, 5, 5, 1500, 100⟩ : TransactionMetrics).calculate_computation_units = .ok s' ∧
      s.total_computation_units ≤ s'.total_computation_units) ∧
    (∃ s s' : ComputationSummary,
      (⟨1024, 5, 5, 1500, 100⟩ : TransactionMetrics).calculate_computation_units = .ok s ∧
      (⟨1024, 5 + 7, 5, 1500, 100⟩ : TransactionMetrics).calculate_computation_units = .ok s' ∧
      s.total_computation_units ≤ s'.total_computation_units) ∧
    (∃ s s' : ComputationSummary,
      (⟨1024, 5, 5, 1500, 100⟩ : TransactionMetrics).calculate_computation_units = .ok s ∧
      (⟨1024, 5, 5 + 7, 1500, 100⟩ : TransactionMetrics).calculate_computation_units = .ok s' ∧
      s.total_computation_units ≤ s'.total_computation_units) ∧
    (∃ s s' : ComputationSummary,
      (⟨1024, 5, 5, 1500, 100⟩ : TransactionMetrics).calculate_computation_units = .ok s ∧
      (⟨1024, 5, 5, 1500 + 7, 100⟩ : TransactionMetrics).calculate_computation_units = .ok s' ∧
      s.total_computation_units ≤ s'.total_computation_units) ∧
    (∃ s s' : ComputationSummary,
      (⟨1024, 5, 5, 1500, 100⟩ : TransactionMetrics).calculate_computation_units = .ok s ∧
      (⟨1024, 5, 5, 1500, 100 + 7⟩ : TransactionMetrics).calculate_computation_units = .ok s' ∧
      s.total_computation_units ≤ s'.total_computation_units) :=
  C9_total_mono_in_each_field ⟨1024, 5, 5, 1500, 100⟩ 7 (by decide) (by decide)
    (by decide) (by decide) (by decide) (by decide)

/-- C10: the output depends on the two byte-size fields only through their
sum: two metrics values agreeing on `num_cycles`, `num_notes_consumed` and
`num_notes_created` whose byte-size fields have equal sums have the same
`kilo_bytes` and identical `calculate_computation_units` results. -/
theorem C10_data_units_depend_only_on_sum (tm1 tm2 : TransactionMetrics)
    (hc : tm1.num_cycles = tm2.num_cycles)
    (h1 : tm1.num_notes_consumed = tm2.num_notes_consumed)
    (h2 : tm1.num_notes_created = tm2.num_notes_created)
    (hs : tm1.created_public_notes_byte_size + tm1.public_account_delta_byte_size
        = tm2.created_public_notes_byte_size + tm2.public_account_delta_byte_size) :
    tm1.kilo_bytes = tm2.kilo_bytes ∧
    tm1.calculate_computation_units = tm2.calculate_computation_units := by
  have hk : tm1.kilo_bytes = tm2.kilo_bytes := by
    rw [TransactionMetrics.kilo_bytes, TransactionMetrics.kilo_bytes, hs]
  have hb : tm1.cycle_bucket = tm2.cycle_bucket := by
    rw [TransactionMetrics.cycle_bucket, TransactionMetrics.cycle_bucket, hc]
  refine ⟨hk, ?_⟩
  rw [TransactionMetrics.calculate_computation_units,
    TransactionMetrics.calculate_computation_units, hb, hk, h1, h2]

/-- C10 witness: byte sizes `(600, 400)` against `(1000, 0)`. -/
theorem C10_data_units_depend_only_on_sum_witness :
    (⟨1024, 1, 2, 600, 400⟩ : TransactionMetrics).kilo_bytes =
      (⟨1024, 1, 2, 1000, 0⟩ : TransactionMetrics).kilo_bytes ∧
    (⟨1024, 1, 2, 600, 400⟩ : TransactionMetrics).calculate_computation_units =
      (⟨1024, 1, 2, 1000, 0⟩ : TransactionMetrics).calculate_computation_units :=
  C10_data_units_depend_only_on_sum ⟨1024, 1, 2, 600, 400⟩ ⟨1024, 1, 2, 1000, 0⟩
    (by decide) (by decide) (by decide) (by decide)

end FeeCalc
